import Mathlib

/-!
Verification of the departure-extraction and staleness/fallback engine of the
homeassistant-rnv integration.

The embedding models the code of
`custom_components/rnv/sensor.py` (class RNVBaseSensor),
`custom_components/rnv/sensors/MotisBaseSensor.py` (class MotisBaseSensor),
`custom_components/rnv/coordinator.py` (RNVCoordinator) and
`custom_components/rnv/data_hub_python_client/ClientFunctions.py`.

Conventions of the embedding:
- Instants are integers (seconds since the epoch).  A Python `datetime`
  value is represented by its instant; timezone-aware display is the
  instant plus an explicit offset.
- An ISO-8601 timestamp string is represented by its parse result
  (`IsoStr.valid t` when `datetime.fromisoformat` yields the instant `t`,
  `IsoStr.invalid` when it raises ValueError).  A missing key, a `None`
  value or an empty string (falsy in Python) is represented by `none` of
  `Option IsoStr`.
- Python string operations that the code uses are modelled at the
  character-list level, because the kernel cannot reduce the built-in
  `String` operations.
-/

/-- Model of Python `c in s` for a single character `c`. -/
def strContainsChar (s : String) (c : Char) : Bool :=
  s.data.contains c

/-- Model of Python `s.lower()`.  `Char.toLower` only lowers ASCII letters,
so this diverges from Python on non-ASCII upper-case letters; none of the
verified properties exercise that corner. -/
def strToLower (s : String) : String :=
  ⟨s.data.map Char.toLower⟩

/-- Model of Python `s.strip()`: drop whitespace from both ends. -/
def strTrim (s : String) : String :=
  ⟨((s.data.dropWhile Char.isWhitespace).reverse.dropWhile Char.isWhitespace).reverse⟩

/-- Model of Python `s.startswith(p)`. -/
def strStartsWith (s p : String) : Bool :=
  p.data.isPrefixOf s.data

/-- `RNV_DEPARTURE_VALID_MINUTES = 5` in sensor.py; MotisBaseSensor.py uses
the identically valued `Motis_DEPARTURE_VALID_MINUTES = 5`. -/
def RNV_DEPARTURE_VALID_MINUTES : Int := 5

/-- The admission window of both sensor variants, in seconds. -/
def departureValidSeconds : Int := RNV_DEPARTURE_VALID_MINUTES * 60

/-- An ISO-8601 timestamp string, represented by its parse result. -/
inductive IsoStr where
  | valid (t : Int)
  | invalid
deriving DecidableEq

/-- A sensor state string, represented by its parse result under
`datetime.fromisoformat`: `parsed t` is a string encoding the instant `t`,
`garbage` is a non-empty string that does not parse. -/
inductive StateVal where
  | parsed (t : Int)
  | garbage
deriving DecidableEq

/-- The per-slot mutable fields of RNVBaseSensor and MotisBaseSensor:
`_last_valid_state` and `_restored_state`.  `none` for the restored state
also covers the empty string, which is falsy in the `if self._restored_state:`
test. -/
structure SlotCache where
  lastValidState : Option StateVal
  restoredState : Option StateVal
deriving DecidableEq

/-- The restored-state branch of `_current_state_for_index`
(sensor.py lines 106-116): parse the restored ISO string, return it only
when it is at or after `now` minus the admission window. -/
def restoredLookup (now : Int) (restored : Option StateVal) : Option StateVal :=
  match restored with
  | none => none
  | some .garbage => none
  | some (.parsed t) =>
      if now - departureValidSeconds ≤ t then some (.parsed t) else none

/-- `RNVBaseSensor._current_state_for_index` (sensor.py lines 93-116) and the
identical `MotisBaseSensor._current_state_for_index`.  The first component of
the result is the updated cache (the method mutates `_last_valid_state` when
the extraction produced a value), the second is the returned state.  `fresh`
is the value of `self._extract_departure(index)`; that method only ever
returns `isoformat()` output, hence an always-parseable string, modelled by
its instant. -/
def currentStateForIndex (now : Int) (fresh : Option Int) (c : SlotCache) :
    SlotCache × Option StateVal :=
  match fresh with
  | some v => ({ c with lastValidState := some (.parsed v) }, some (.parsed v))
  | none =>
      match c.lastValidState with
      | some lv => (c, some lv)
      | none => (c, restoredLookup now c.restoredState)

/-- The body of the `available` property after the resolved state is known
(sensor.py lines 35-48): absent or unparseable states are unavailable, a
parsed state is available exactly when it is at or after `now` minus the
admission window. -/
def availableOf (now : Int) (state : Option StateVal) : Bool :=
  match state with
  | none => false
  | some .garbage => false
  | some (.parsed t) => decide (now - departureValidSeconds ≤ t)

/-- `RNVBaseSensor.available` (sensor.py lines 35-48) and the identical
`MotisBaseSensor.available`: resolve the state through
`_current_state_for_index`, then apply the parse-and-window test. -/
def available (now : Int) (fresh : Option Int) (c : SlotCache) : Bool :=
  availableOf now (currentStateForIndex now fresh c).2

/-- `RNVBaseSensor._current_attrs_for_index` (sensor.py lines 118-127) and
the identical `MotisBaseSensor._current_attrs_for_index`, polymorphic in the
attribute payload.  The result is (updated `_last_valid_attributes`,
returned attributes).  `none` for `fresh` covers both a `None` and an empty
(falsy) dict from `_extract_journey_info`.  Note the restored branch returns
`self._restored_attributes` unconditionally: there is no age check on
attributes. -/
def currentAttrsForIndex {α : Type} (fresh lastValid restored : Option α) :
    Option α × Option α :=
  match fresh with
  | some a => (some a, some a)
  | none =>
      match lastValid with
      | some a => (some a, some a)
      | none => (none, restored)

/-- One stop row of the GraphQL station/journeys response, as read by
`RNVBaseSensor._extract_departure`.  `platformLabel` models
`stop.get("pole", {}).get("platform", {}).get("label")` (absent keys give
`none`); the two departure fields model
`stop.get("realtimeDeparture", {}).get("isoString")` and the planned
variant, with `none` covering a missing key, a `None` value and the empty
string (all falsy in the Python `or` chain).  `destinationLabel` models
`stop.get("destinationLabel", "")`, with a missing key as the empty
string. -/
structure Stop where
  destinationLabel : String
  platformLabel : Option String
  realtimeDeparture : Option IsoStr
  plannedDeparture : Option IsoStr
deriving DecidableEq

/-- One journey element of the response: the line label
`journey.get("line", {}).get("lineGroup", {}).get("label")`, the
`cancelled` flag (`journey.get("cancelled", False)`) and the stops list. -/
structure Journey where
  lineLabel : Option String
  cancelled : Bool
  stops : List Stop
deriving DecidableEq

/-- The filter configuration of an RNVBaseSensor: `self._platform` and
`self._line` (empty string means no filter) and the compiled destination
regular expression, abstracted as the search predicate
`re.compile(self._destinationLabel_filter).search`, with `none` for an
empty (falsy) filter string. -/
structure FilterCfg where
  platform : String
  line : String
  destFilter : Option (String → Bool)

/-- The cancellation marker test of sensor.py line 211:
`destination_label.strip().lower() == "entfällt"`. -/
def isCancelledLabel (s : String) : Bool :=
  strToLower (strTrim s) == "entfällt"

/-- The filter pipeline of `RNVBaseSensor._get_desired_stops`
(sensor.py lines 145-161): drop stops whose destination label contains the
invalid marker `$`, then, when a destination filter is configured, keep
only stops whose destination label matches it. -/
def desiredStops (cfg : FilterCfg) (stops : List Stop) : List Stop :=
  let filtered0 := stops.filter (fun s => !(strContainsChar s.destinationLabel '$'))
  match cfg.destFilter with
  | some p => filtered0.filter (fun s => p s.destinationLabel)
  | none => filtered0

/-- `RNVBaseSensor._get_desired_stops` (sensor.py lines 145-166): returns
the filtered stops and the journey after the method ran.  The Python list
comprehension always allocates a fresh list object, so the guard
`if filtered_stops is not stops:` is always true and the filtered list is
written back into `journey["stops"]` unconditionally; the second component
records that write. -/
def getDesiredStops (cfg : FilterCfg) (j : Journey) : List Stop × Journey :=
  let filtered := desiredStops cfg j.stops
  (filtered, { j with stops := filtered })

/-- The per-stop body of the loop in `RNVBaseSensor._extract_departure`
(sensor.py lines 187-217): apply the platform and line filters, pick the
realtime departure string falling back to the planned one, parse it,
compute the cancellation flag, and keep the departure when it is inside
the admission window or cancelled. -/
def stopDeparture (cfg : FilterCfg) (now : Int) (j : Journey) (s : Stop) : Option Int :=
  if cfg.platform ≠ "" ∧ s.platformLabel ≠ some cfg.platform then none
  else if cfg.line ≠ "" ∧ j.lineLabel ≠ some cfg.line then none
  else
    match s.realtimeDeparture <|> s.plannedDeparture with
    | none => none
    | some .invalid => none
    | some (.valid depTime) =>
        let cancelled := j.cancelled || isCancelledLabel s.destinationLabel
        if now - departureValidSeconds ≤ depTime ∨ cancelled = true then some depTime
        else none

/-- The departures list built by `RNVBaseSensor._extract_departure`
(sensor.py lines 180-219): collect the admitted departure times of the
desired stops of every journey in order, then `departures.sort()`.  The
in-place Python sort is modelled by insertion sort, which computes the same
ascending ordering. -/
def extractDepartures (cfg : FilterCfg) (now : Int) (js : List Journey) : List Int :=
  List.insertionSort (fun a b => a ≤ b)
    (js.flatMap fun j => ((getDesiredStops cfg j).1).filterMap (stopDeparture cfg now j))

/-- The coordinator payload as seen from `_extract_departure`:
`malformed` models a payload where looking up
`data["data"]["station"]["journeys"]["elements"]` raises KeyError or
TypeError (including `coordinator.data` being `None` after a fetch fault),
`elements` a payload carrying a journeys list. -/
inductive Payload where
  | malformed
  | elements (js : List Journey)

/-- `RNVBaseSensor._extract_departure` (sensor.py lines 168-222): `None` on
a malformed payload, otherwise the index-th sorted departure when it
exists. -/
def extractDeparture (cfg : FilterCfg) (now : Int) (p : Payload) (index : Nat) : Option Int :=
  match p with
  | .malformed => none
  | .elements js => (extractDepartures cfg now js)[index]?

/-- The effect of one `_extract_departure` pass on the shared coordinator
payload: every journey object has its stops list replaced by the output of
`_get_desired_stops` (sensor.py lines 162-165). -/
def extractDepartureEffect (cfg : FilterCfg) (p : Payload) : Payload :=
  match p with
  | .malformed => .malformed
  | .elements js => .elements (js.map fun j => (getDesiredStops cfg j).2)

/-- A filter configuration with no platform, line or destination filter. -/
def cfgNone : FilterCfg := { platform := "", line := "", destFilter := none }

/-- A stop with a plain destination, no platform information and a planned
departure at instant `t`, used by the concrete scenarios. -/
def demoStop (t : Int) : Stop :=
  { destinationLabel := "X"
    platformLabel := none
    realtimeDeparture := none
    plannedDeparture := some (.valid t) }

/-- The raw payload of the C4 scenario, with T = 0: three future
non-cancelled journeys at T+2, T+5 and T+8 minutes and one cancelled
journey at T-10 minutes. -/
def demoJourneys : List Journey :=
  [ { lineLabel := none, cancelled := false, stops := [demoStop 120] }
  , { lineLabel := none, cancelled := false, stops := [demoStop 300] }
  , { lineLabel := none, cancelled := false, stops := [demoStop 480] }
  , { lineLabel := none, cancelled := true, stops := [demoStop (-600)] } ]

/-- A journey whose only stop carries the `$` invalid marker in its
destination label. -/
def dollarJourney : Journey :=
  { lineLabel := none
    cancelled := false
    stops := [ { destinationLabel := "A$B"
                 platformLabel := none
                 realtimeDeparture := none
                 plannedDeparture := some (.valid 60) } ] }

/-- The filter configuration of a MotisBaseSensor: `self._platform` and
`self._line`, empty string meaning no filter. -/
structure MotisCfg where
  platform : String
  line : String
deriving DecidableEq

/-- The `place` object of one Motis stop-times row: `place.get("track", "")`
(missing key defaulted to the empty string), and the departure, arrival and
scheduledDeparture timestamp strings with `none` covering a missing key and
the empty string. -/
structure MotisPlace where
  track : String
  departure : Option IsoStr
  arrival : Option IsoStr
  scheduledDeparture : Option IsoStr
deriving DecidableEq

/-- One row of `coordinator.data["stopTimes"]` as read by
`MotisBaseSensor._extract_journey_data`. -/
structure MotisStop where
  place : MotisPlace
  displayName : String
  headsign : Option String
  cancelled : Bool
  realTime : Bool
  routeColor : Option String
  routeTextColor : Option String
deriving DecidableEq

/-- The journey_info dictionary built by
`MotisBaseSensor._extract_journey_data` (MotisBaseSensor.py lines 210-222). -/
structure MotisJourneyInfo where
  planned_time : Option IsoStr
  realtime_time : Option IsoStr
  realtime_time_local : String
  label : String
  destination : Option String
  cancelled : Bool
  platform : String
  time_until_departure : String
  realtime : Bool
  route_color : String
  route_text_color : String
deriving DecidableEq

/-- `MotisBaseSensor._check_skip_departure` (MotisBaseSensor.py lines
163-172): skip on a platform mismatch, a line mismatch, or an empty
departure string. -/
def checkSkipDeparture (cfg : MotisCfg) (depStr : Option IsoStr)
    (platformLabel line : String) : Bool :=
  if cfg.platform ≠ "" ∧ platformLabel ≠ cfg.platform then true
  else if cfg.line ≠ "" ∧ line ≠ cfg.line then true
  else if depStr = none then true
  else false

/-- Two-digit decimal rendering of a value in [0, 60), as produced by
`strftime`. -/
def padTwo (n : Int) : String :=
  if n < 10 then "0" ++ toString n else toString n

/-- Model of `strftime("%H:%M")` on a wall-clock instant in the
seconds-since-epoch model (no leap seconds, as in Unix time). -/
def formatHM (t : Int) : String :=
  padTwo ((t / 3600) % 24) ++ ":" ++ padTwo ((t % 3600) / 60)

/-- `_extract_until_display` (MotisBaseSensor.py lines 15-29).  The Python
function receives the timezone-aware localized departure datetime; here it
receives the departure instant plus the display offset of the local
timezone.  Subtraction of aware datetimes compares instants, while
`strftime` renders the local wall clock.  `diff_seconds // 60` is floor
division, matched by the Euclidean division of `Int` for the positive
divisor 60. -/
def extractUntilDisplay (now depInstant tzOffset : Int) (cancelled : Bool)
    (language : String) : String :=
  if cancelled then
    if strStartsWith language "de" then "entfällt" else "cancelled"
  else
    let diffSeconds := depInstant - now
    let minutesRemaining := max 0 (diffSeconds / 60)
    if 60 ≤ minutesRemaining then formatHM (depInstant + tzOffset)
    else if 0 < minutesRemaining then toString minutesRemaining ++ " min"
    else if strStartsWith language "de" then "sofort" else "now"

/-- The per-stop body of the loop in `MotisBaseSensor._extract_journey_data`
(MotisBaseSensor.py lines 186-223): read the place fields, apply
`_check_skip_departure`, parse the departure string, and on admission
(inside the window or cancelled) emit the (departure time, journey_info)
pair. -/
def motisStopEntry (cfg : MotisCfg) (language : String) (tzOffset now : Int)
    (stop : MotisStop) : Option (Int × MotisJourneyInfo) :=
  let place := stop.place
  let platformLabel := place.track
  let line := stop.displayName
  let depStr := place.departure <|> place.arrival
  if checkSkipDeparture cfg depStr platformLabel line then none
  else
    match depStr with
    | none => none
    | some .invalid => none
    | some (.valid depTime) =>
        let cancelled := stop.cancelled
        if now - departureValidSeconds ≤ depTime ∨ cancelled = true then
          some (depTime,
            { planned_time := place.scheduledDeparture
              realtime_time := place.departure
              realtime_time_local := formatHM (depTime + tzOffset)
              label := stop.displayName
              destination := stop.headsign
              cancelled := cancelled
              platform := platformLabel
              time_until_departure := extractUntilDisplay now depTime tzOffset cancelled language
              realtime := stop.realTime
              route_color := "#" ++ stop.routeColor.getD "ffffff"
              route_text_color := "#" ++ stop.routeTextColor.getD "000000" })
        else none

/-- The comparison key of `journeys_info.sort(key=lambda tup: tup[0])`. -/
abbrev byDepTime (a b : Int × MotisJourneyInfo) : Prop := a.1 ≤ b.1

instance : IsTrans (Int × MotisJourneyInfo) byDepTime :=
  ⟨fun _ _ _ h1 h2 => le_trans h1 h2⟩

instance : IsTotal (Int × MotisJourneyInfo) byDepTime :=
  ⟨fun a b => Int.le_total a.1 b.1⟩

/-- The Motis coordinator payload as seen from `_extract_journey_data`:
`malformed` models a payload where `coordinator.data["stopTimes"]` raises
KeyError or TypeError, `stopTimes` a payload carrying the rows. -/
inductive MotisPayload where
  | malformed
  | stopTimes (stops : List MotisStop)

/-- `MotisBaseSensor._extract_journey_data` (MotisBaseSensor.py lines
174-226): `None` on a malformed payload, otherwise the admitted entries
sorted by departure time.  The stable in-place Python sort by the first
tuple component is modelled by insertion sort with the key comparison,
which is stable and computes the same ordering. -/
def extractJourneyData (cfg : MotisCfg) (language : String) (tzOffset now : Int)
    (p : MotisPayload) : Option (List (Int × MotisJourneyInfo)) :=
  match p with
  | .malformed => none
  | .stopTimes stops =>
      some (List.insertionSort byDepTime
        (stops.filterMap (motisStopEntry cfg language tzOffset now)))

/-- The hour field of `datetime.now(UTC)` in the seconds-since-epoch
model. -/
def utcHour (now : Int) : Int := (now / 3600) % 24

/-- The query end time computed by `RNVCoordinator._async_update_data`
(coordinator.py lines 76-88): `if 0 <= now_utc.hour < 4` the end time is
now plus 5 hours, otherwise now plus 2 hours.  The hour tested is the hour
of `datetime.now(UTC)`, not of the local time. -/
def updateEndTime (now : Int) : Int :=
  if 0 ≤ utcHour now ∧ utcHour now < 4 then now + 5 * 3600 else now + 2 * 3600

/-- The outcome of one HTTP request as seen by `_do_get` and `_do_post` in
ClientFunctions.py: a 2xx response with a JSON body, or one of the handled
exception classes (`ClientSSLError`, `asyncio.TimeoutError`,
`ClientResponseError` raised by `raise_for_status` for 4xx and 5xx,
any other `ClientError`, or an unexpected exception). -/
inductive HttpOutcome where
  | ok (body : String)
  | sslError
  | timeoutError
  | responseError (status : Nat)
  | clientError
  | otherError
deriving DecidableEq

/-- A fault propagated to the caller of `_do_get` or `_do_post`. -/
inductive FetchFault where
  | ssl
  | timeout
  | http (status : Nat)
  | transport
  | other
deriving DecidableEq

/-- `ClientFunctions._do_get` (ClientFunctions.py lines 40-67): on success
return the parsed body; every `except` branch logs and then re-raises the
exception, modelled by an `Except.error` result. -/
def doGet (o : HttpOutcome) : Except FetchFault (Option String) :=
  match o with
  | .ok b => .ok (some b)
  | .sslError => .error .ssl
  | .timeoutError => .error .timeout
  | .responseError s => .error (.http s)
  | .clientError => .error .transport
  | .otherError => .error .other

/-- `ClientFunctions._do_post` (ClientFunctions.py lines 85-111): identical
fault handling to `_do_get`. -/
def doPost (o : HttpOutcome) : Except FetchFault (Option String) :=
  match o with
  | .ok b => .ok (some b)
  | .sslError => .error .ssl
  | .timeoutError => .error .timeout
  | .responseError s => .error (.http s)
  | .clientError => .error .transport
  | .otherError => .error .other

/-- A Motis filter configuration with no platform or line filter. -/
def mcfgNone : MotisCfg := { platform := "", line := "" }

/-- Two Motis rows with the same departure instant 100 and distinct
payloads, in this input order, used to exhibit stability of the sort. -/
def motisDemoStops : List MotisStop :=
  [ { place := { track := "", departure := some (.valid 100), arrival := none
                 scheduledDeparture := none }
      displayName := "S1", headsign := some "A", cancelled := false
      realTime := false, routeColor := none, routeTextColor := none }
  , { place := { track := "", departure := some (.valid 100), arrival := none
                 scheduledDeparture := none }
      displayName := "S2", headsign := some "B", cancelled := false
      realTime := false, routeColor := none, routeTextColor := none } ]

/-- The journey_info record produced for the first demo row at now = 0,
language en, offset 0. -/
def infoA : MotisJourneyInfo :=
  { planned_time := none
    realtime_time := some (.valid 100)
    realtime_time_local := "00:01"
    label := "S1"
    destination := some "A"
    cancelled := false
    platform := ""
    time_until_departure := "1 min"
    realtime := false
    route_color := "#ffffff"
    route_text_color := "#000000" }

/-- The journey_info record produced for the second demo row at now = 0,
language en, offset 0. -/
def infoB : MotisJourneyInfo :=
  { planned_time := none
    realtime_time := some (.valid 100)
    realtime_time_local := "00:01"
    label := "S2"
    destination := some "B"
    cancelled := false
    platform := ""
    time_until_departure := "1 min"
    realtime := false
    route_color := "#ffffff"
    route_text_color := "#000000" }

/-- Claim C2: per sensor slot, the resolved state follows the precedence
fresh over cached last-valid over restored over absent: a fresh value
becomes the new last-valid and is returned; otherwise an existing
last-valid is returned unconditionally with no age check (the statement
holds for every `now`); otherwise the restored snapshot is consulted
through the age-checked lookup; otherwise the state is absent. -/
theorem fallback_precedence (now : Int) (fresh : Option Int) (c : SlotCache) :
    (∀ v, fresh = some v →
      currentStateForIndex now fresh c
        = ({ c with lastValidState := some (.parsed v) }, some (.parsed v)))
    ∧ (fresh = none → ∀ lv, c.lastValidState = some lv →
        currentStateForIndex now fresh c = (c, some lv))
    ∧ (fresh = none → c.lastValidState = none →
        currentStateForIndex now fresh c = (c, restoredLookup now c.restoredState))
    ∧ (fresh = none → c.lastValidState = none → c.restoredState = none →
        currentStateForIndex now fresh c = (c, none)) := by
  refine ⟨?_, ?_, ?_, ?_⟩
  · rintro v rfl
    rfl
  · rintro rfl lv hlv
    simp [currentStateForIndex, hlv]
  · rintro rfl hlv
    simp [currentStateForIndex, hlv]
  · rintro rfl hlv hr
    simp [currentStateForIndex, hlv, hr, restoredLookup]

/-- Witness for C2: a cycle with a fresh value stores it as last-valid, and
two later faulted cycles keep returning it. -/
theorem fallback_precedence_witness :
    currentStateForIndex 0 (some 100) ⟨none, none⟩
      = (⟨some (.parsed 100), none⟩, some (.parsed 100))
    ∧ currentStateForIndex 60 none ⟨some (.parsed 100), none⟩
      = (⟨some (.parsed 100), none⟩, some (.parsed 100))
    ∧ currentStateForIndex 1000000 none ⟨some (.parsed 100), none⟩
      = (⟨some (.parsed 100), none⟩, some (.parsed 100)) :=
  ⟨(fallback_precedence 0 (some 100) ⟨none, none⟩).1 100 rfl,
   (fallback_precedence 60 none ⟨some (.parsed 100), none⟩).2.1 rfl _ rfl,
   (fallback_precedence 1000000 none ⟨some (.parsed 100), none⟩).2.1 rfl _ rfl⟩

/-- Counterexample to claim C5 as stated: with no fresh and no last-valid
value, a restored snapshot six minutes in the past (360 seconds, now = 0)
yields an absent state, but the restored attributes are still returned,
although the claim says the snapshot is treated as absent for both state
and attributes. -/
theorem restored_decay_counterexample :
    (currentStateForIndex 0 none ⟨none, some (.parsed (-360))⟩).2 = none
    ∧ currentAttrsForIndex (α := Nat) none none (some 7) = (none, some 7) := by
  constructor
  · decide
  · rfl

/-- Claim C5 as amended: when no fresh value and no last-valid value exist,
the restored snapshot state is returned exactly when its departure timestamp
is at or after now minus 5 minutes (so a snapshot 4 minutes in the past is
surfaced and one 6 minutes in the past is not), while the restored
attributes are returned unconditionally, with no age check. -/
theorem restored_decay (now t : Int) {α : Type} (attrs : Option α) :
    (currentStateForIndex now none ⟨none, some (.parsed t)⟩).2
      = (if now - departureValidSeconds ≤ t then some (.parsed t) else none)
    ∧ currentAttrsForIndex none none attrs = (none, attrs) := by
  exact ⟨rfl, rfl⟩

/-- Witness for C5 (amended): with now = 0, a snapshot 240 seconds in the
past is surfaced and one 360 seconds in the past is not, while attributes
are surfaced in both situations. -/
theorem restored_decay_witness :
    (currentStateForIndex 0 none ⟨none, some (.parsed (-240))⟩).2 = some (.parsed (-240))
    ∧ (currentStateForIndex 0 none ⟨none, some (.parsed (-360))⟩).2 = none
    ∧ currentAttrsForIndex (α := Nat) none none (some 9) = (none, some 9) := by
  refine ⟨?_, ?_, (restored_decay 0 (-360) (some 9)).2⟩
  · have h := (restored_decay 0 (-240) (α := Nat) none).1
    rw [h]
    decide
  · have h := (restored_decay 0 (-360) (α := Nat) none).1
    rw [h]
    decide

/-- Claim C6: for every slot and read time, availability is false exactly
when the resolved state is absent, or present but not parseable as a
timestamp, or present but more than 5 minutes in the past; this applies
uniformly to fresh, cached and restored values because `available` resolves
the state through `_current_state_for_index` at read time. -/
theorem availability_iff (now : Int) (fresh : Option Int) (c : SlotCache) :
    available now fresh c = false ↔
      ((currentStateForIndex now fresh c).2 = none
       ∨ (currentStateForIndex now fresh c).2 = some .garbage
       ∨ ∃ t, (currentStateForIndex now fresh c).2 = some (.parsed t)
              ∧ t < now - departureValidSeconds) := by
  unfold available availableOf
  rcases h : (currentStateForIndex now fresh c).2 with _ | sv
  · simp
  · rcases sv with t | _
    · simp only [decide_eq_false_iff_not, not_le]
      constructor
      · intro ht
        exact Or.inr (Or.inr ⟨t, rfl, ht⟩)
      · rintro (hc | hc | ⟨t', ht', hlt⟩)
        · exact absurd hc (by simp)
        · exact absurd hc (by simp)
        · cases ht'
          exact hlt
    · simp

/-- Witness for C6: a cached value 301 seconds old at read time makes the
sensor unavailable even though the state is still returned. -/
theorem availability_iff_witness :
    available 301 none ⟨some (.parsed 0), none⟩ = false :=
  (availability_iff 301 none ⟨some (.parsed 0), none⟩).mpr
    (Or.inr (Or.inr ⟨0, rfl, by decide⟩))

/-- Counterexample to claim C3 as stated: a payload that parses to an empty
journeys list (a valid empty cycle) and a malformed payload have exactly the
same effect on the per-slot cache: `_extract_departure` returns `None` in
both cases, so both leave a previous last-valid value of 50 in place and
keep returning it.  The valid empty cycle does not update the last-valid
tracking to nothing-upcoming, and the two cases are not distinguishable. -/
theorem empty_cycle_counterexample :
    currentStateForIndex 0 (extractDeparture cfgNone 0 (.elements []) 0)
        ⟨some (.parsed 50), none⟩
      = currentStateForIndex 0 (extractDeparture cfgNone 0 .malformed 0)
        ⟨some (.parsed 50), none⟩
    ∧ (currentStateForIndex 0 (extractDeparture cfgNone 0 (.elements []) 0)
        ⟨some (.parsed 50), none⟩).1.lastValidState = some (.parsed 50)
    ∧ (currentStateForIndex 0 (extractDeparture cfgNone 0 (.elements []) 0)
        ⟨some (.parsed 50), none⟩).2 = some (.parsed 50) := by
  refine ⟨rfl, rfl, rfl⟩

/-- Claim C3 as amended: a response that parses but yields zero admissible
entries has exactly the same effect on the per-slot cache as a fetch fault
or malformed payload: in both cases `_extract_departure` returns `None`,
the last-valid tracking is left unchanged, and the last-known-good state is
not overwritten; the two cases have no distinguishable effect. -/
theorem empty_cycle_like_fault (cfg : FilterCfg) (now : Int) (js : List Journey)
    (idx : Nat) (c : SlotCache) (h : extractDepartures cfg now js = []) :
    currentStateForIndex now (extractDeparture cfg now (.elements js) idx) c
      = currentStateForIndex now (extractDeparture cfg now .malformed idx) c
    ∧ (currentStateForIndex now (extractDeparture cfg now (.elements js) idx) c).1 = c := by
  have he : extractDeparture cfg now (.elements js) idx = none := by
    simp [extractDeparture, h]
  have hm : extractDeparture cfg now .malformed idx = none := rfl
  rw [he, hm]
  refine ⟨rfl, ?_⟩
  rcases c with ⟨lv, r⟩
  cases lv <;> rfl

/-- Witness for C3 (amended): a concrete valid empty cycle against a cache
holding a last-valid value behaves like a malformed cycle. -/
theorem empty_cycle_like_fault_witness :
    currentStateForIndex 0 (extractDeparture cfgNone 0 (.elements [dollarJourney]) 1)
        ⟨some (.parsed 7), none⟩
      = currentStateForIndex 0 (extractDeparture cfgNone 0 .malformed 1)
        ⟨some (.parsed 7), none⟩ :=
  (empty_cycle_like_fault cfgNone 0 [dollarJourney] 1 ⟨some (.parsed 7), none⟩
    (by decide)).1

/-- Counterexample to claim C4 as stated: on the scenario payload (three
future non-cancelled entries at T+2, T+5, T+8 minutes and one cancelled
entry at T-10 minutes, T = 0, no destination filter), slot 0 is the
cancelled T-10 entry and slot 2 is T+5, not slot 0 = T+2 and slot 2 = T+8
as the claim assigns: `departures.sort()` orders the cancelled entry first
by its own timestamp. -/
theorem scenario_counterexample :
    extractDeparture cfgNone 0 (.elements demoJourneys) 0 = some (-600)
    ∧ extractDeparture cfgNone 0 (.elements demoJourneys) 2 = some 300 := by
  refine ⟨by decide, by decide⟩

/-- Claim C4 as amended: on the scenario payload the cancelled T-10 entry is
sorted by its own timestamp and therefore lands in slot 0, with the future
entries following in order: slot 1 = T+2, slot 2 = T+5, slot 3 = T+8. -/
theorem scenario_order :
    extractDeparture cfgNone 0 (.elements demoJourneys) 0 = some (-600)
    ∧ extractDeparture cfgNone 0 (.elements demoJourneys) 1 = some 120
    ∧ extractDeparture cfgNone 0 (.elements demoJourneys) 2 = some 300
    ∧ extractDeparture cfgNone 0 (.elements demoJourneys) 3 = some 480 := by
  refine ⟨by decide, by decide, by decide, by decide⟩

/-- Claim C1: for every raw entry processed by the departure extraction
that passes the platform and line filters and whose departure string
parses, the entry is kept exactly when its departure timestamp is at or
after now minus 5 minutes or the entry is cancelled; stated for the RNV
per-stop step (cancellation is the journey flag or the entfällt label) and
for the Motis per-stop step (cancellation is the row flag). -/
theorem admission_window :
    (∀ (cfg : FilterCfg) (now : Int) (j : Journey) (s : Stop) (t : Int),
      (cfg.platform = "" ∨ s.platformLabel = some cfg.platform) →
      (cfg.line = "" ∨ j.lineLabel = some cfg.line) →
      (s.realtimeDeparture <|> s.plannedDeparture) = some (.valid t) →
      stopDeparture cfg now j s
        = (if now - departureValidSeconds ≤ t
              ∨ (j.cancelled || isCancelledLabel s.destinationLabel) = true
           then some t else none))
    ∧ (∀ (cfg : MotisCfg) (language : String) (tzOffset now : Int)
        (s : MotisStop) (t : Int),
      checkSkipDeparture cfg (s.place.departure <|> s.place.arrival)
          s.place.track s.displayName = false →
      (s.place.departure <|> s.place.arrival) = some (.valid t) →
      (motisStopEntry cfg language tzOffset now s).map Prod.fst
        = (if now - departureValidSeconds ≤ t ∨ s.cancelled = true
           then some t else none)) := by
  constructor
  · intro cfg now j s t hp hl hd
    have h1 : ¬(cfg.platform ≠ "" ∧ s.platformLabel ≠ some cfg.platform) := by
      rcases hp with h | h
      · exact fun hc => hc.1 h
      · exact fun hc => hc.2 h
    have h2 : ¬(cfg.line ≠ "" ∧ j.lineLabel ≠ some cfg.line) := by
      rcases hl with h | h
      · exact fun hc => hc.1 h
      · exact fun hc => hc.2 h
    simp only [stopDeparture, if_neg h1, if_neg h2, hd]
  · intro cfg language tzOffset now s t hskip hd
    have hskip2 : checkSkipDeparture cfg (some (.valid t)) s.place.track s.displayName
        = false := hd ▸ hskip
    simp only [motisStopEntry, hd, hskip2, Bool.false_eq_true, if_false]
    by_cases hadm : now - departureValidSeconds ≤ t ∨ s.cancelled = true
    · rw [if_pos hadm, if_pos hadm]
      rfl
    · rw [if_neg hadm, if_neg hadm]
      rfl

/-- Witness for C1: with no filters and now = 0, a cancelled entry with
departure timestamp 600 seconds in the past is included, while a
non-cancelled entry with the same timestamp is excluded. -/
theorem admission_window_witness :
    stopDeparture cfgNone 0 { lineLabel := none, cancelled := true, stops := [] }
        (demoStop (-600)) = some (-600)
    ∧ stopDeparture cfgNone 0 { lineLabel := none, cancelled := false, stops := [] }
        (demoStop (-600)) = none := by
  constructor
  · have h := admission_window.1 cfgNone 0
      { lineLabel := none, cancelled := true, stops := [] } (demoStop (-600)) (-600)
      (Or.inl rfl) (Or.inl rfl) rfl
    rw [h]
    decide
  · have h := admission_window.1 cfgNone 0
      { lineLabel := none, cancelled := false, stops := [] } (demoStop (-600)) (-600)
      (Or.inl rfl) (Or.inl rfl) rfl
    rw [h]
    decide

/-- Claim C7: every normalized output list is sorted non-decreasing by
departure time, for the RNV departures list and for the Motis journey-data
list, and the Motis sort is stable: two collected entries with equal
departure times appear in the output in their input order. -/
theorem ordering_stable :
    (∀ (cfg : FilterCfg) (now : Int) (js : List Journey),
      List.Sorted (fun a b => a ≤ b) (extractDepartures cfg now js))
    ∧ (∀ (cfg : MotisCfg) (language : String) (tzOffset now : Int)
        (stops : List MotisStop),
      List.Sorted byDepTime
        ((extractJourneyData cfg language tzOffset now (.stopTimes stops)).getD []))
    ∧ (∀ (cfg : MotisCfg) (language : String) (tzOffset now : Int)
        (stops : List MotisStop) (x y : Int × MotisJourneyInfo),
      x.1 = y.1 →
      List.Sublist [x, y] (stops.filterMap (motisStopEntry cfg language tzOffset now)) →
      List.Sublist [x, y]
        ((extractJourneyData cfg language tzOffset now (.stopTimes stops)).getD [])) := by
  refine ⟨?_, ?_, ?_⟩
  · intro cfg now js
    exact List.sorted_insertionSort _ _
  · intro cfg language tzOffset now stops
    exact List.sorted_insertionSort byDepTime _
  · intro cfg language tzOffset now stops x y hxy hsub
    exact List.pair_sublist_insertionSort (le_of_eq hxy) hsub

/-- Witness for C7: the two demo rows share departure instant 100 and keep
their input order in the sorted output. -/
theorem ordering_stable_witness :
    List.Sublist [((100 : Int), infoA), ((100 : Int), infoB)]
      ((extractJourneyData mcfgNone "en" 0 0 (.stopTimes motisDemoStops)).getD []) := by
  have e : motisDemoStops.filterMap (motisStopEntry mcfgNone "en" 0 0)
      = [((100 : Int), infoA), ((100 : Int), infoB)] := by decide
  exact ordering_stable.2.2 mcfgNone "en" 0 0 motisDemoStops
    ((100 : Int), infoA) ((100 : Int), infoB) rfl (by rw [e])

/-- Counterexample to claim C8 as stated: at the instant 82800 (23:00 UTC),
the local time in a UTC+1 zone is midnight, inside the midnight-to-4AM
interval, so the claim requires the end time now plus 5 hours; the code
tests the UTC hour 23 and computes now plus 2 hours. -/
theorem query_window_counterexample :
    updateEndTime 82800 = 82800 + 2 * 3600
    ∧ ((82800 + 3600) / 3600) % 24 = 0 := by
  exact ⟨by decide, by decide⟩

/-- Claim C8 as amended: the coordinator computes the query end time as now
plus 5 hours when the current UTC hour is between midnight and 4 AM UTC,
and now plus 2 hours otherwise. -/
theorem query_window (now : Int) :
    (utcHour now < 4 → updateEndTime now = now + 5 * 3600)
    ∧ (4 ≤ utcHour now → updateEndTime now = now + 2 * 3600) := by
  constructor
  · intro h
    have h0 : 0 ≤ utcHour now := Int.emod_nonneg _ (by decide)
    simp [updateEndTime, h, h0]
  · intro h
    have hlt : ¬(utcHour now < 4) := not_lt.mpr h
    simp [updateEndTime, hlt]

/-- Witness for C8 (amended): at midnight UTC the window is 5 hours, at
noon UTC it is 2 hours. -/
theorem query_window_witness :
    updateEndTime 0 = 0 + 5 * 3600
    ∧ updateEndTime (12 * 3600) = 12 * 3600 + 2 * 3600 :=
  ⟨(query_window 0).1 (by decide), (query_window (12 * 3600)).2 (by decide)⟩

/-- Counterexample to claim C9 as stated: a timeout and an HTTP status
fault are not converted into an absent result; both `_do_get` and
`_do_post` re-raise them after logging, modelled by an error result. -/
theorem client_fault_counterexample :
    doGet .timeoutError = .error .timeout
    ∧ doGet (.responseError 500) = .error (.http 500)
    ∧ doGet (.responseError 404) = .error (.http 404)
    ∧ doPost .timeoutError = .error .timeout
    ∧ doPost (.responseError 500) = .error (.http 500) :=
  ⟨rfl, rfl, rfl, rfl, rfl⟩

/-- Claim C9 as amended: the client fetch operations log every fault and
re-raise it to the caller: timeouts, HTTP 4xx and 5xx responses, SSL
errors, other client transport errors and unexpected errors all propagate
as faults; no fault is converted into an absent result, and only a
successful response yields a body. -/
theorem client_faults_propagate :
    (∀ b, doGet (.ok b) = .ok (some b) ∧ doPost (.ok b) = .ok (some b))
    ∧ (∀ s, doGet (.responseError s) = .error (.http s)
         ∧ doPost (.responseError s) = .error (.http s))
    ∧ doGet .timeoutError = .error .timeout
    ∧ doPost .timeoutError = .error .timeout
    ∧ doGet .sslError = .error .ssl
    ∧ doPost .sslError = .error .ssl
    ∧ doGet .clientError = .error .transport
    ∧ doPost .clientError = .error .transport
    ∧ doGet .otherError = .error .other
    ∧ doPost .otherError = .error .other :=
  ⟨fun _ => ⟨rfl, rfl⟩, fun _ => ⟨rfl, rfl⟩,
   rfl, rfl, rfl, rfl, rfl, rfl, rfl, rfl⟩

/-- Claim C10: the stop-filtering step is not read-only: on every call the
journey object receives the freshly filtered stops list (the identity check
compares a freshly built list against the original, so the write is
unconditional), and one extraction pass rewrites the stops of every journey
in the shared coordinator payload; concretely, the dollar-marked stop of
the demo journey is removed from the stored journey, so the removal is
visible to every other sensor sharing the coordinator data. -/
theorem stops_mutation :
    (∀ (cfg : FilterCfg) (j : Journey),
      getDesiredStops cfg j
        = (desiredStops cfg j.stops, { j with stops := desiredStops cfg j.stops }))
    ∧ (∀ (cfg : FilterCfg) (js : List Journey),
      extractDepartureEffect cfg (.elements js)
        = .elements (js.map fun j => { j with stops := desiredStops cfg j.stops }))
    ∧ dollarJourney.stops.length = 1
    ∧ ((getDesiredStops cfgNone dollarJourney).2).stops = [] := by
  refine ⟨fun cfg j => rfl, fun cfg js => rfl, rfl, by decide⟩
